import Mathlib

/-!
Shallow embedding of the versity backend match lifecycle and hour
verification core: the data model (src/app/models/match.py,
src/app/models/volunteer_hour.py, src/app/models/opportunity.py,
src/app/models/user.py), the match routes
(src/app/routes/match_routes.py), the hour tracking routes
(src/app/routes/hour_tracking_routes.py) and the pydantic request
schemas (src/app/schemas/match.py, src/app/schemas/volunteer_hour.py).

Conventions of the embedding:
- SQLAlchemy rows become Lean structures; a table is a list of rows and
  query(...).filter(...).first() becomes List.find?.
- HTTPException is a structure holding the HTTP status code and the
  detail string; a route returns the post-call database state together
  with a RouteResult value.
- Python truthiness of an Optional[int] is optFalsy: None and 0 are
  falsy.
- The role column is a String (as in the model); the UserRole str-enum
  members compare equal to their string values.
- Timestamps are natural numbers; the datetime.utcnow default of
  Match.matched_on is passed in as the parameter now.
-/

namespace Versity

/-- MatchStatus str-enum from src/app/models/match.py. -/
inductive MatchStatus where
  | pending
  | accepted
  | rejected
deriving DecidableEq, Repr

/-- String value of a MatchStatus member, as in the Python str-enum. -/
def MatchStatus.value : MatchStatus → String
  | .pending => "pending"
  | .accepted => "accepted"
  | .rejected => "rejected"

/-- User row (src/app/models/user.py): id, role (a String column) and the
nullable organization_id foreign key. Profile columns not used by the
examined routes are omitted. -/
structure UserRec where
  id : Nat
  role : String
  organization_id : Option Nat
deriving DecidableEq, Repr

/-- Opportunity row (src/app/models/opportunity.py): id and the nullable
organization_id foreign key; content columns are omitted. -/
structure OpportunityRec where
  id : Nat
  organization_id : Option Nat
deriving DecidableEq, Repr

/-- Match row (src/app/models/match.py). The status column is a nullable
SQLAlchemy Enum, hence Option MatchStatus. -/
structure MatchRec where
  id : Nat
  user_id : Nat
  opportunity_id : Nat
  status : Option MatchStatus
  matched_on : Nat
deriving DecidableEq, Repr

/-- VolunteerHour row (src/app/models/volunteer_hour.py): columns id,
user_id, opportunity_id, hours, date, verified. There is no status
column. -/
structure VolunteerHourRec where
  id : Nat
  user_id : Nat
  opportunity_id : Nat
  hours : Rat
  date : Nat
  verified : Bool
deriving DecidableEq, Repr

/-- Column names of the volunteer_hours table, from
src/app/models/volunteer_hour.py. -/
def volunteerHourColumns : List String :=
  ["id", "user_id", "opportunity_id", "hours", "date", "verified"]

/-- Database state: the tables the examined routes touch, plus the
autoincrement counter for the matches primary key. The matches table is
called matchesTable because matches is a reserved word in Lean. -/
structure DB where
  opportunities : List OpportunityRec
  matchesTable : List MatchRec
  hours : List VolunteerHourRec
  nextMatchId : Nat
deriving DecidableEq, Repr

/-- HTTPException as raised by the routes: HTTP status code plus detail. -/
structure HErr where
  statusCode : Nat
  detail : String
deriving DecidableEq, Repr

/-- Route outcome: either the returned value or an HTTPException. -/
inductive RouteResult (A : Type) where
  | ok (val : A)
  | error (e : HErr)
deriving DecidableEq, Repr

/-- Conflict in the sense of the error taxonomy of the specification
(section 7): the Conflict class maps to HTTP status 400 or 409. -/
def isConflict (e : HErr) : Prop := e.statusCode = 400 ∨ e.statusCode = 409

/-- Python truthiness test for an Optional[int]: None and 0 are falsy. -/
def optFalsy : Option Nat → Bool
  | none => true
  | some n => n == 0

/-- Request body of POST /api/matches (MatchCreate in
src/app/schemas/match.py; it declares opportunity_id with no validator). -/
structure MatchCreate where
  opportunity_id : Nat
deriving DecidableEq, Repr

/-- Notification to a volunteer. The route create_match in
src/app/routes/match_routes.py sends none; the list records what the
route actually dispatches. -/
structure Notification where
  volunteer_id : Nat
  opportunity_id : Nat
deriving DecidableEq, Repr

/-- Outcome of the create_match route: final database state, the
notifications dispatched during the call, and the HTTP result. -/
structure CreateMatchOut where
  db : DB
  notifications : List Notification
  result : RouteResult MatchRec
deriving DecidableEq, Repr

/-- POST /api/matches (create_match in src/app/routes/match_routes.py):
only volunteers may apply; the opportunity must exist; a duplicate
(user_id, opportunity_id) application is rejected with 400; otherwise a
Match with status pending and matched_on now is inserted and returned.
The route body dispatches no notification (MatchingService.create_match,
which would send one, has no caller in the route). -/
def create_match (db : DB) (caller : UserRec) (body : MatchCreate)
    (now : Nat) : CreateMatchOut :=
  if caller.role != "volunteer" then
    ⟨db, [], .error ⟨403, "Only volunteers can apply for opportunities"⟩⟩
  else
    match db.opportunities.find? (fun o => o.id == body.opportunity_id) with
    | none => ⟨db, [], .error ⟨404, "Opportunity not found"⟩⟩
    | some _ =>
      match db.matchesTable.find? (fun m =>
          m.user_id == caller.id && m.opportunity_id == body.opportunity_id) with
      | some _ =>
        ⟨db, [], .error ⟨400, "You have already applied for this opportunity"⟩⟩
      | none =>
        ⟨{ db with
            matchesTable := db.matchesTable ++
              [⟨db.nextMatchId, caller.id, body.opportunity_id, some .pending, now⟩],
            nextMatchId := db.nextMatchId + 1 },
          [],
          .ok ⟨db.nextMatchId, caller.id, body.opportunity_id, some .pending, now⟩⟩

/-- GET /api/matches (list_matches in src/app/routes/match_routes.py):
volunteers get their own rows, organization users with a truthy
organization_id get the join on their organization, admins get all rows,
any other role gets the empty list. -/
def list_matches (db : DB) (caller : UserRec) : List MatchRec :=
  if caller.role == "volunteer" then
    db.matchesTable.filter (fun m => m.user_id == caller.id)
  else if caller.role == "organization" then
    if optFalsy caller.organization_id then []
    else
      db.matchesTable.filter (fun m =>
        db.opportunities.any (fun o =>
          o.id == m.opportunity_id && o.organization_id == caller.organization_id))
  else if caller.role == "admin" then
    db.matchesTable
  else []

/-- Body of PUT /api/matches: the status key may be absent from the JSON
object (omitted), or present with a string or an explicit null. -/
inductive StatusField where
  | omitted
  | provided (v : Option String)
deriving DecidableEq, Repr

/-- Lookup of a string among the MatchStatus values, as done by the
status validator of MatchUpdate (src/app/schemas/match.py). -/
def parseStatusString (s : String) : Option MatchStatus :=
  if s == "pending" then some .pending
  else if s == "accepted" then some .accepted
  else if s == "rejected" then some .rejected
  else none

/-- Pydantic parsing of MatchUpdate (src/app/schemas/match.py). The field
is Optional[str] with default None; the validator runs only on provided
values (pydantic v1 validators skip absent fields unless always is set),
so an omitted key yields None unvalidated, while a provided value must be
one of pending, accepted, rejected or the request fails with 422. -/
def parseMatchUpdate : StatusField → RouteResult (Option MatchStatus)
  | .omitted => .ok none
  | .provided none =>
    .error ⟨422, "status must be one of pending accepted rejected"⟩
  | .provided (some s) =>
    match parseStatusString s with
    | some st => .ok (some st)
    | none => .error ⟨422, "status must be one of pending accepted rejected"⟩

/-- Assignment match.status = v followed by commit: every row of the
matches table with the given primary key gets the new status. -/
def setMatchStatus (ms : List MatchRec) (mid : Nat) (st : Option MatchStatus) :
    List MatchRec :=
  ms.map (fun m => if m.id == mid then { m with status := st } else m)

/-- Outcome of a route returning a single Match. -/
structure UpdateMatchOut where
  db : DB
  result : RouteResult MatchRec
deriving DecidableEq, Repr

/-- Core of PUT /api/matches (update_match in
src/app/routes/match_routes.py) after body parsing: fetch the match
(404), fetch its opportunity (404), authorize (admins pass;
organization users need a truthy organization_id equal to the
organization_id of the opportunity; everyone else is forbidden), then
overwrite the status unconditionally and return the refreshed row. -/
def update_match_core (db : DB) (caller : UserRec) (match_id : Nat)
    (newStatus : Option MatchStatus) : UpdateMatchOut :=
  match db.matchesTable.find? (fun m => m.id == match_id) with
  | none => ⟨db, .error ⟨404, "Match not found"⟩⟩
  | some m =>
    match db.opportunities.find? (fun o => o.id == m.opportunity_id) with
    | none => ⟨db, .error ⟨404, "Opportunity not found"⟩⟩
    | some opp =>
      let authErr : Option HErr :=
        if caller.role == "admin" then none
        else if caller.role == "organization" then
          if optFalsy caller.organization_id ||
              opp.organization_id != caller.organization_id then
            some ⟨403, "Not authorized to update this match"⟩
          else none
        else some ⟨403, "Only organizations and admins can update match status"⟩
      match authErr with
      | some e => ⟨db, .error e⟩
      | none =>
        ⟨{ db with matchesTable := setMatchStatus db.matchesTable match_id newStatus },
          .ok { m with status := newStatus }⟩

/-- PUT /api/matches: pydantic parsing of the body followed by the route
handler. -/
def update_match (db : DB) (caller : UserRec) (match_id : Nat)
    (body : StatusField) : UpdateMatchOut :=
  match parseMatchUpdate body with
  | .error e => ⟨db, .error e⟩
  | .ok st => update_match_core db caller match_id st

/-- Modelled from the spec: the get_organization_user dependency. The
module app.utils.auth is imported by the routes but absent from the
source tree. Per the spec, verify_hours callers must be the organization
owning the opportunity, or admin, so the dependency admits exactly the
organization and admin roles and rejects every other caller. -/
def isOrganizationUser (u : UserRec) : Bool :=
  u.role == "organization" || u.role == "admin"

/-- Request body of PUT /api/hours/id/verify (VolunteerHourVerify in
src/app/schemas/volunteer_hour.py): a bare string field with no
validator, plus optional admin notes that the route ignores. -/
structure VolunteerHourVerify where
  status : String
deriving DecidableEq, Repr

/-- Request body of PUT /api/hours/id (VolunteerHourUpdate in
src/app/schemas/volunteer_hour.py). The description and status fields of
the schema have no matching column on the VolunteerHour model, so the
route skips them via its hasattr guard; they are carried here to mirror
the schema. -/
structure VolunteerHourUpdate where
  hours : Option Rat
  date : Option Nat
  description : Option String
  status : Option String
deriving DecidableEq, Repr

/-- Outcome of a route returning a single VolunteerHour row. -/
structure HourRouteOut where
  db : DB
  result : RouteResult VolunteerHourRec
deriving DecidableEq, Repr

/-- Outcome of DELETE /api/hours/id: 204 carries no body. -/
structure DeleteHourOut where
  db : DB
  result : RouteResult Unit
deriving DecidableEq, Repr

/-- Assignment hour.verified = v followed by commit. -/
def setHourVerified (hs : List VolunteerHourRec) (hid : Nat) (v : Bool) :
    List VolunteerHourRec :=
  hs.map (fun h => if h.id == hid then { h with verified := v } else h)

/-- GET /api/hours (list_hours in src/app/routes/hour_tracking_routes.py):
volunteers get their own rows; organization users get the join filtered
by Opportunity.organization_id equal to the id of the calling user (the
source compares against current_user.id, not
current_user.organization_id); admins get all rows; other roles get the
empty list. -/
def list_hours (db : DB) (caller : UserRec) : List VolunteerHourRec :=
  if caller.role == "volunteer" then
    db.hours.filter (fun h => h.user_id == caller.id)
  else if caller.role == "organization" then
    db.hours.filter (fun h =>
      db.opportunities.any (fun o =>
        o.id == h.opportunity_id && o.organization_id == some caller.id))
  else if caller.role == "admin" then
    db.hours
  else []

/-- PUT /api/hours/id/verify (verify_hours in
src/app/routes/hour_tracking_routes.py): behind the
get_organization_user dependency, fetch the row (404); an organization
caller is authorized only when the opportunity of the row exists and its
organization_id equals the id of the calling user (the source compares
opportunity.organization_id with current_user.id); then verified is set
to whether the status string equals approved, with no validation of the
string and no check of the current verified value. -/
def verify_hours (db : DB) (caller : UserRec) (id : Nat)
    (body : VolunteerHourVerify) : HourRouteOut :=
  if !isOrganizationUser caller then
    ⟨db, .error ⟨403, "Organization access required"⟩⟩
  else
    match db.hours.find? (fun h => h.id == id) with
    | none => ⟨db, .error ⟨404, "Hour record not found"⟩⟩
    | some h =>
      let authErr : Option HErr :=
        if caller.role == "organization" then
          match db.opportunities.find? (fun o => o.id == h.opportunity_id) with
          | none => some ⟨403, "Not authorized to verify these hours"⟩
          | some opp =>
            if opp.organization_id != some caller.id then
              some ⟨403, "Not authorized to verify these hours"⟩
            else none
        else none
      match authErr with
      | some e => ⟨db, .error e⟩
      | none =>
        ⟨{ db with hours := setHourVerified db.hours id (body.status == "approved") },
          .ok { h with verified := body.status == "approved" }⟩

/-- Attribute access hour_entry.status on a VolunteerHour ORM instance.
The model (src/app/models/volunteer_hour.py, volunteerHourColumns)
declares no status column, so the access raises AttributeError; the
fallible lookup is an Option and the result here is always none. -/
def hourStatusAttr (_ : VolunteerHourRec) : Option String := none

/-- Field-wise application of a VolunteerHourUpdate body with
exclude_unset semantics: the hours and date keys update their columns;
description and status have no matching attribute on the model, so the
hasattr guard of the route skips them. -/
def applyHourUpdate (h : VolunteerHourRec) (body : VolunteerHourUpdate) :
    VolunteerHourRec :=
  let h1 := match body.hours with
    | some x => { h with hours := x }
    | none => h
  match body.date with
  | some d => { h1 with date := d }
  | none => h1

/-- PUT /api/hours/id (update_volunteer_hour in
src/app/routes/hour_tracking_routes.py): fetch the row (404); a
volunteer may only touch an own row and only volunteers and admins may
update (403 otherwise); then the route reads hour_entry.status, an
attribute the model does not have, so the AttributeError reaches the
general exception handler of run.py and the call ends with 500 before
any verified check or mutation happens. The dead branches after the
attribute read mirror the remaining source lines. -/
def update_volunteer_hour (db : DB) (caller : UserRec) (id : Nat)
    (body : VolunteerHourUpdate) : HourRouteOut :=
  match db.hours.find? (fun h => h.id == id) with
  | none => ⟨db, .error ⟨404, "Volunteer hour entry not found"⟩⟩
  | some h =>
    if caller.role == "volunteer" && h.user_id != caller.id then
      ⟨db, .error ⟨403, "Can only update your own hour entries"⟩⟩
    else if caller.role != "volunteer" && caller.role != "admin" then
      ⟨db, .error ⟨403, "Only volunteers and admins can update hour entries"⟩⟩
    else
      match hourStatusAttr h with
      | none =>
        ⟨db, .error ⟨500, "An unexpected error occurred. Please try again later."⟩⟩
      | some s =>
        if s == "verified" then
          ⟨db, .error ⟨400, "Cannot update verified hour entries"⟩⟩
        else
          ⟨{ db with hours := db.hours.map (fun x =>
              if x.id == id then applyHourUpdate h body else x) },
            .ok (applyHourUpdate h body)⟩

/-- DELETE /api/hours/id (delete_volunteer_hour in
src/app/routes/hour_tracking_routes.py): same shape as the update route;
the read of the missing hour_entry.status attribute ends every call on
an existing row with 500 before the verified check or the delete. -/
def delete_volunteer_hour (db : DB) (caller : UserRec) (id : Nat) :
    DeleteHourOut :=
  match db.hours.find? (fun h => h.id == id) with
  | none => ⟨db, .error ⟨404, "Volunteer hour entry not found"⟩⟩
  | some h =>
    if caller.role == "volunteer" && h.user_id != caller.id then
      ⟨db, .error ⟨403, "Can only delete your own hour entries"⟩⟩
    else if caller.role != "volunteer" && caller.role != "admin" then
      ⟨db, .error ⟨403, "Only volunteers and admins can delete hour entries"⟩⟩
    else
      match hourStatusAttr h with
      | none =>
        ⟨db, .error ⟨500, "An unexpected error occurred. Please try again later."⟩⟩
      | some s =>
        if s == "verified" then
          ⟨db, .error ⟨400, "Cannot delete verified hour entries"⟩⟩
        else
          ⟨{ db with hours := db.hours.filter (fun x => x.id != id) }, .ok ()⟩

/-- Authorization predicate of update_match_core in spec terms: an admin,
or an organization user whose truthy organization_id equals the
organization_id of the opportunity. -/
def canUpdateMatch (caller : UserRec) (opp : OpportunityRec) : Prop :=
  caller.role = "admin" ∨
    (caller.role = "organization" ∧ optFalsy caller.organization_id = false ∧
      opp.organization_id = caller.organization_id)

/-- Uniqueness of (user_id, opportunity_id) pairs across the matches
table. -/
def PairUnique (ms : List MatchRec) : Prop :=
  ms.Pairwise (fun a b => ¬(a.user_id = b.user_id ∧ a.opportunity_id = b.opportunity_id))

/-! Concrete fixtures used by counterexamples and witnesses. -/

/-- Opportunity 1 owned by organization 1. -/
def oppOrg1 : OpportunityRec := ⟨1, some 1⟩

/-- Opportunity 2 owned by organization 2. -/
def oppOrg2 : OpportunityRec := ⟨2, some 2⟩

/-- Opportunity 3 owned by organization 1; organization 1 shares its
numeric id with the user orgUser below, though it is a different entity. -/
def oppOrg1b : OpportunityRec := ⟨3, some 1⟩

/-- Volunteer user with id 5. -/
def volUser : UserRec := ⟨5, "volunteer", none⟩

/-- Admin user with id 9. -/
def adminUser : UserRec := ⟨9, "admin", none⟩

/-- Organization-role user with id 1 belonging to organization 2: the
registration flow links the user to a row of the separate organizations
table, so the user primary key and the organization foreign key differ
in general. -/
def orgUser : UserRec := ⟨1, "organization", some 2⟩

/-- Database with opportunity 1 and an accepted match of volunteer 5 on
it. -/
def dbAccepted : DB := ⟨[oppOrg1], [⟨1, 5, 1, some .accepted, 0⟩], [], 2⟩

/-- Database with opportunity 1 and a pending match of volunteer 5 on
it (a duplicate application scenario). -/
def dbDup : DB := ⟨[oppOrg1], [⟨1, 5, 1, some .pending, 0⟩], [], 2⟩

/-- Database with opportunity 1 and no matches. -/
def dbOneOpp : DB := ⟨[oppOrg1], [], [], 1⟩

/-- Verified hour record of volunteer 5 on opportunity 1. -/
def verifiedHour : VolunteerHourRec := ⟨1, 5, 1, 3, 0, true⟩

/-- Database holding only the verified hour record. -/
def dbVerifiedHour : DB := ⟨[oppOrg1], [], [verifiedHour], 1⟩

/-- Update body with every field unset. -/
def emptyHourUpdate : VolunteerHourUpdate := ⟨none, none, none, none⟩

/-- Unverified hour record of volunteer 5 on opportunity 2, whose owning
organization 2 is the organization of orgUser. -/
def hourOwnOrg : VolunteerHourRec := ⟨1, 5, 2, 3, 0, false⟩

/-- Unverified hour record of volunteer 6 on opportunity 3, owned by
organization 1, which is not the organization of orgUser. -/
def hourForeign : VolunteerHourRec := ⟨2, 6, 3, 4, 0, false⟩

/-- Database for the list_hours and verify_hours scenarios. -/
def dbHours : DB := ⟨[oppOrg2, oppOrg1b], [], [hourOwnOrg, hourForeign], 1⟩

/-! Claim theorems. -/

/-- C3 counterexample: the claim says no authorized call to the update
endpoint can set the status of an accepted or rejected match back to
pending. On the concrete database dbAccepted, the admin user updates
match 1 (currently accepted) with body status pending and the endpoint
succeeds, storing pending again. -/
theorem c3_counterexample_pending_settable :
    (update_match dbAccepted adminUser 1 (.provided (some "pending"))).db.matchesTable
      = [⟨1, 5, 1, some .pending, 0⟩]
    ∧ (update_match dbAccepted adminUser 1 (.provided (some "pending"))).result
      = .ok ⟨1, 5, 1, some .pending, 0⟩ := by
  decide

/-- C4: on the concrete verified hour record, update and delete by the
owning volunteer do not fail with Conflict: the route reads the
nonexistent status attribute of the VolunteerHour model, and the
resulting AttributeError surfaces as a 500 internal error (the record is
left unchanged only because the handler crashes before the verified
check and before any mutation). -/
theorem c4_verified_record_mutation_crashes :
    (update_volunteer_hour dbVerifiedHour volUser 1 emptyHourUpdate).result
      = .error ⟨500, "An unexpected error occurred. Please try again later."⟩
    ∧ (update_volunteer_hour dbVerifiedHour volUser 1 emptyHourUpdate).db = dbVerifiedHour
    ∧ (delete_volunteer_hour dbVerifiedHour volUser 1).result
      = .error ⟨500, "An unexpected error occurred. Please try again later."⟩
    ∧ (delete_volunteer_hour dbVerifiedHour volUser 1).db = dbVerifiedHour
    ∧ "status" ∉ volunteerHourColumns := by
  decide

/-- C5: the claim says an organization caller receives exactly the hour
records whose opportunity belongs to the organization of the caller. On
dbHours the caller orgUser (user id 1, organization 2) receives
hourForeign, whose opportunity belongs to organization 1 (not the
organization of the caller, but its id equals the user id of the
caller), and does not receive hourOwnOrg, whose opportunity belongs to
organization 2 (the organization of the caller): the source filters on
Opportunity.organization_id equal to current_user.id. -/
theorem c5_list_hours_uses_user_id :
    list_hours dbHours orgUser = [hourForeign]
    ∧ oppOrg2.organization_id = orgUser.organization_id
    ∧ hourOwnOrg.opportunity_id = oppOrg2.id
    ∧ oppOrg1b.organization_id ≠ orgUser.organization_id
    ∧ hourForeign.opportunity_id = oppOrg1b.id := by
  decide

/-- C6: the claim says an organization caller whose organization owns the
opportunity of the hour record succeeds. On dbHours the caller orgUser
(organization 2) verifies hour 1, whose opportunity 2 belongs to
organization 2, yet the route replies 403: the source compares
opportunity.organization_id with current_user.id (1), not with the
organization of the caller. -/
theorem c6_verify_hours_owner_forbidden :
    (verify_hours dbHours orgUser 1 ⟨"approved"⟩).result
      = .error ⟨403, "Not authorized to verify these hours"⟩
    ∧ (verify_hours dbHours orgUser 1 ⟨"approved"⟩).db = dbHours
    ∧ oppOrg2.organization_id = orgUser.organization_id
    ∧ hourOwnOrg.opportunity_id = oppOrg2.id := by
  decide

/-- C7 counterexample: the claim says a successful application triggers a
notification to the volunteer. On dbOneOpp the volunteer applies to
opportunity 1, the endpoint succeeds and creates the pending match with
matched_on equal to now, but the set of notifications dispatched by the
route is empty. -/
theorem c7_counterexample_no_notification :
    (create_match dbOneOpp volUser ⟨1⟩ 42).result = .ok ⟨1, 5, 1, some .pending, 42⟩
    ∧ (create_match dbOneOpp volUser ⟨1⟩ 42).db.matchesTable
        = [⟨1, 5, 1, some .pending, 42⟩]
    ∧ (create_match dbOneOpp volUser ⟨1⟩ 42).notifications = [] := by
  decide

/-- Any call of create_match preserves uniqueness of the
(user_id, opportunity_id) pairs: the error branches leave the table
untouched and the insert branch runs only when the duplicate lookup
found nothing. -/
theorem create_match_preserves_PairUnique (db : DB) (caller : UserRec)
    (body : MatchCreate) (now : Nat) (hPU : PairUnique db.matchesTable) :
    PairUnique (create_match db caller body now).db.matchesTable := by
  unfold create_match
  by_cases h1 : (caller.role != "volunteer") = true
  · simpa [h1] using hPU
  · rw [if_neg h1]
    cases hf : db.opportunities.find? (fun o => o.id == body.opportunity_id) with
    | none => simpa using hPU
    | some o =>
      cases hfm : db.matchesTable.find? (fun m =>
          m.user_id == caller.id && m.opportunity_id == body.opportunity_id) with
      | some m1 => simpa using hPU
      | none =>
        have hnone := List.find?_eq_none.mp hfm
        show PairUnique (db.matchesTable ++ [_])
        unfold PairUnique at hPU ⊢
        rw [List.pairwise_append]
        refine ⟨hPU, List.pairwise_singleton _ _, ?_⟩
        intro a ha b hb
        rw [List.mem_singleton] at hb
        subst hb
        rintro ⟨h2, h3⟩
        have hcontra := hnone a ha
        simp only [Bool.and_eq_true, beq_iff_eq] at hcontra
        exact hcontra ⟨h2, h3⟩

/-- C1: if a Match with the pair (caller id, opportunity id) already
exists, create_match by that volunteer on that existing opportunity
fails with Conflict (HTTP 400 per the taxonomy of the spec) and leaves
the matches table unchanged; moreover every create_match call preserves
uniqueness of the (volunteer, opportunity) pairs. -/
theorem c1_duplicate_application_conflict
    (db : DB) (caller : UserRec) (body : MatchCreate) (now : Nat)
    (hrole : caller.role = "volunteer")
    (hopp : ∃ o ∈ db.opportunities, o.id = body.opportunity_id)
    (hdup : ∃ m ∈ db.matchesTable,
      m.user_id = caller.id ∧ m.opportunity_id = body.opportunity_id) :
    (∃ e, (create_match db caller body now).result = .error e ∧ isConflict e)
    ∧ (create_match db caller body now).db.matchesTable = db.matchesTable
    ∧ ∀ (db2 : DB) (c2 : UserRec) (b2 : MatchCreate) (n2 : Nat),
        PairUnique db2.matchesTable →
        PairUnique (create_match db2 c2 b2 n2).db.matchesTable := by
  obtain ⟨o, hoMem, hoid⟩ := hopp
  obtain ⟨m0, hm0Mem, hm0u, hm0o⟩ := hdup
  have hfoSome : (db.opportunities.find? (fun o => o.id == body.opportunity_id)).isSome :=
    List.find?_isSome.mpr ⟨o, hoMem, by simp [hoid]⟩
  obtain ⟨o1, hfo⟩ := Option.isSome_iff_exists.mp hfoSome
  have hfmSome : (db.matchesTable.find? (fun m =>
      m.user_id == caller.id && m.opportunity_id == body.opportunity_id)).isSome :=
    List.find?_isSome.mpr ⟨m0, hm0Mem, by simp [hm0u, hm0o]⟩
  obtain ⟨m1, hfm⟩ := Option.isSome_iff_exists.mp hfmSome
  have hres : create_match db caller body now =
      ⟨db, [], .error ⟨400, "You have already applied for this opportunity"⟩⟩ := by
    simp only [create_match, hrole, bne_self_eq_false, Bool.false_eq_true, if_false,
      hfo, hfm]
  refine ⟨⟨⟨400, "You have already applied for this opportunity"⟩, ?_, Or.inl rfl⟩,
    ?_, ?_⟩
  · rw [hres]
  · rw [hres]
  · intro db2 c2 b2 n2 hPU
    exact create_match_preserves_PairUnique db2 c2 b2 n2 hPU

/-- Witness for C1 on the concrete duplicate-application database. -/
theorem c1_witness :
    (∃ e, (create_match dbDup volUser ⟨1⟩ 3).result = .error e ∧ isConflict e)
    ∧ (create_match dbDup volUser ⟨1⟩ 3).db.matchesTable = dbDup.matchesTable
    ∧ ∀ (db2 : DB) (c2 : UserRec) (b2 : MatchCreate) (n2 : Nat),
        PairUnique db2.matchesTable →
        PairUnique (create_match db2 c2 b2 n2).db.matchesTable :=
  c1_duplicate_application_conflict dbDup volUser ⟨1⟩ 3 rfl (by decide) (by decide)

/-- When the caller passes the authorization of update_match_core, the
status is overwritten and the refreshed row is returned. -/
theorem update_match_core_authorized
    (db : DB) (caller : UserRec) (mid : Nat) (st : Option MatchStatus)
    (m : MatchRec) (opp : OpportunityRec)
    (hm : db.matchesTable.find? (fun x => x.id == mid) = some m)
    (ho : db.opportunities.find? (fun o => o.id == m.opportunity_id) = some opp)
    (hauth : canUpdateMatch caller opp) :
    update_match_core db caller mid st =
      ⟨{ db with matchesTable := setMatchStatus db.matchesTable mid st },
        .ok { m with status := st }⟩ := by
  rcases hauth with hadm | ⟨horg, hfalsy, heq⟩
  · simp [update_match_core, hm, ho, hadm]
  · simp [update_match_core, hm, ho, horg, hfalsy, heq]

/-- When an organization caller fails the truthiness or ownership test of
update_match_core, the route replies 403 and leaves the database
unchanged. -/
theorem update_match_core_org_forbidden
    (db : DB) (caller : UserRec) (mid : Nat) (st : Option MatchStatus)
    (m : MatchRec) (opp : OpportunityRec)
    (hm : db.matchesTable.find? (fun x => x.id == mid) = some m)
    (ho : db.opportunities.find? (fun o => o.id == m.opportunity_id) = some opp)
    (horg : caller.role = "organization")
    (hbad : (optFalsy caller.organization_id ||
      opp.organization_id != caller.organization_id) = true) :
    update_match_core db caller mid st =
      ⟨db, .error ⟨403, "Not authorized to update this match"⟩⟩ := by
  simp [update_match_core, hm, ho, horg, hbad]

/-- C2: for an existing match whose opportunity exists, update succeeds
for an admin; for an organization caller it succeeds exactly when the
organization_id of the caller is non-null and equals the organization_id
of the opportunity; a volunteer caller is always forbidden. The
hypothesis hpos excludes the unrealizable organization id 0 (primary
keys start at 1), under which Python truthiness and non-nullness
coincide. -/
theorem c2_update_match_status_authorization
    (db : DB) (caller : UserRec) (mid : Nat) (st : Option MatchStatus)
    (m : MatchRec) (opp : OpportunityRec)
    (hm : db.matchesTable.find? (fun x => x.id == mid) = some m)
    (ho : db.opportunities.find? (fun o => o.id == m.opportunity_id) = some opp)
    (hpos : caller.organization_id ≠ some 0) :
    (caller.role = "admin" →
      (update_match_core db caller mid st).result = .ok { m with status := st })
    ∧ (caller.role = "organization" →
        ((∃ r, (update_match_core db caller mid st).result = .ok r) ↔
          (caller.organization_id ≠ none ∧
            opp.organization_id = caller.organization_id)))
    ∧ (caller.role = "organization" →
        ¬(caller.organization_id ≠ none ∧
            opp.organization_id = caller.organization_id) →
        (update_match_core db caller mid st).result =
          .error ⟨403, "Not authorized to update this match"⟩)
    ∧ (caller.role = "volunteer" →
        (update_match_core db caller mid st).result =
          .error ⟨403, "Only organizations and admins can update match status"⟩) := by
  refine ⟨?_, ?_, ?_, ?_⟩
  · intro ha
    rw [update_match_core_authorized db caller mid st m opp hm ho (Or.inl ha)]
  · intro horg
    by_cases hgood : caller.organization_id ≠ none ∧
        opp.organization_id = caller.organization_id
    · obtain ⟨hne, heq⟩ := hgood
      have hfalsy : optFalsy caller.organization_id = false := by
        rcases hco : caller.organization_id with _ | k
        · exact absurd hco hne
        · have hk : k ≠ 0 := fun h0 => hpos (by rw [hco, h0])
          simp [optFalsy, hk]
      constructor
      · intro _
        exact ⟨hne, heq⟩
      · intro _
        rw [update_match_core_authorized db caller mid st m opp hm ho
          (Or.inr ⟨horg, hfalsy, heq⟩)]
        exact ⟨{ m with status := st }, rfl⟩
    · have hbad : (optFalsy caller.organization_id ||
          opp.organization_id != caller.organization_id) = true := by
        rcases hco : caller.organization_id with _ | k
        · simp [optFalsy]
        · have hne2 : opp.organization_id ≠ some k := by
            intro hx
            exact hgood ⟨by rw [hco]; simp, by rw [hco]; exact hx⟩
          simp [optFalsy, hne2]
      rw [update_match_core_org_forbidden db caller mid st m opp hm ho horg hbad]
      constructor
      · rintro ⟨r, hr⟩
        exact RouteResult.noConfusion hr
      · intro hgood2
        exact absurd hgood2 hgood
  · intro horg hgoodneg
    have hbad : (optFalsy caller.organization_id ||
        opp.organization_id != caller.organization_id) = true := by
      rcases hco : caller.organization_id with _ | k
      · simp [optFalsy]
      · have hne2 : opp.organization_id ≠ some k := by
          intro hx
          exact hgoodneg ⟨by rw [hco]; simp, by rw [hco]; exact hx⟩
        simp [optFalsy, hne2]
    rw [update_match_core_org_forbidden db caller mid st m opp hm ho horg hbad]
  · intro hv
    simp [update_match_core, hm, ho, hv]

/-- Organization user with id 2 belonging to organization 1, the owner of
oppOrg1. -/
def orgOwner1 : UserRec := ⟨2, "organization", some 1⟩

/-- Witness for C2 on the accepted match of dbAccepted with the owning
organization caller. -/
theorem c2_witness :
    (orgOwner1.role = "admin" →
      (update_match_core dbAccepted orgOwner1 1 (some .accepted)).result =
        .ok { (⟨1, 5, 1, some .accepted, 0⟩ : MatchRec) with status := some .accepted })
    ∧ (orgOwner1.role = "organization" →
        ((∃ r, (update_match_core dbAccepted orgOwner1 1 (some .accepted)).result = .ok r) ↔
          (orgOwner1.organization_id ≠ none ∧
            oppOrg1.organization_id = orgOwner1.organization_id)))
    ∧ (orgOwner1.role = "organization" →
        ¬(orgOwner1.organization_id ≠ none ∧
            oppOrg1.organization_id = orgOwner1.organization_id) →
        (update_match_core dbAccepted orgOwner1 1 (some .accepted)).result =
          .error ⟨403, "Not authorized to update this match"⟩)
    ∧ (orgOwner1.role = "volunteer" →
        (update_match_core dbAccepted orgOwner1 1 (some .accepted)).result =
          .error ⟨403, "Only organizations and admins can update match status"⟩) :=
  c2_update_match_status_authorization dbAccepted orgOwner1 1 (some .accepted)
    ⟨1, 5, 1, some .accepted, 0⟩ oppOrg1 (by decide) (by decide) (by decide)

/-- C3 amended: the update endpoint enforces no transition relation: an
authorized caller may store any of the three validated statuses,
including pending, regardless of the current status of the match. -/
theorem c3_amended_no_transition_guard
    (db : DB) (caller : UserRec) (mid : Nat) (s : String) (st : MatchStatus)
    (m : MatchRec) (opp : OpportunityRec)
    (hm : db.matchesTable.find? (fun x => x.id == mid) = some m)
    (ho : db.opportunities.find? (fun o => o.id == m.opportunity_id) = some opp)
    (hauth : canUpdateMatch caller opp)
    (hs : parseStatusString s = some st) :
    (update_match db caller mid (.provided (some s))).result =
      .ok { m with status := some st }
    ∧ (update_match db caller mid (.provided (some s))).db.matchesTable =
        setMatchStatus db.matchesTable mid (some st) := by
  have hcore := update_match_core_authorized db caller mid (some st) m opp hm ho hauth
  constructor <;> simp [update_match, parseMatchUpdate, hs, hcore]

/-- Witness for the amended C3: the admin stores pending on the accepted
match of dbAccepted. -/
theorem c3_amended_witness :
    (update_match dbAccepted adminUser 1 (.provided (some "pending"))).result =
      .ok { (⟨1, 5, 1, some .accepted, 0⟩ : MatchRec) with status := some .pending }
    ∧ (update_match dbAccepted adminUser 1 (.provided (some "pending"))).db.matchesTable =
        setMatchStatus dbAccepted.matchesTable 1 (some .pending) :=
  c3_amended_no_transition_guard dbAccepted adminUser 1 "pending" .pending
    ⟨1, 5, 1, some .accepted, 0⟩ oppOrg1 (by decide) (by decide) (Or.inl rfl)
    (by decide)

/-- C7 amended: a volunteer applying to an existing opportunity with no
prior application gets exactly one new Match row appended, with status
pending and matched_on now, and the new row is returned; the endpoint
dispatches no notification. -/
theorem c7_amended_create_match_success
    (db : DB) (caller : UserRec) (body : MatchCreate) (now : Nat)
    (hrole : caller.role = "volunteer")
    (hopp : ∃ o ∈ db.opportunities, o.id = body.opportunity_id)
    (hnodup : ∀ m ∈ db.matchesTable,
      ¬(m.user_id = caller.id ∧ m.opportunity_id = body.opportunity_id)) :
    (create_match db caller body now).db.matchesTable =
      db.matchesTable ++
        [⟨db.nextMatchId, caller.id, body.opportunity_id, some .pending, now⟩]
    ∧ (create_match db caller body now).result =
        .ok ⟨db.nextMatchId, caller.id, body.opportunity_id, some .pending, now⟩
    ∧ (create_match db caller body now).notifications = [] := by
  obtain ⟨o, hoMem, hoid⟩ := hopp
  have hfoSome : (db.opportunities.find? (fun o => o.id == body.opportunity_id)).isSome :=
    List.find?_isSome.mpr ⟨o, hoMem, by simp [hoid]⟩
  obtain ⟨o1, hfo⟩ := Option.isSome_iff_exists.mp hfoSome
  have hfm : db.matchesTable.find? (fun m =>
      m.user_id == caller.id && m.opportunity_id == body.opportunity_id) = none := by
    rw [List.find?_eq_none]
    intro x hx
    simp only [Bool.and_eq_true, beq_iff_eq, not_and]
    intro h1 h2
    exact hnodup x hx ⟨h1, h2⟩
  refine ⟨?_, ?_, ?_⟩ <;> simp [create_match, hrole, hfo, hfm]

/-- Witness for the amended C7 on the empty database with one
opportunity. -/
theorem c7_amended_witness :
    (create_match dbOneOpp volUser ⟨1⟩ 42).db.matchesTable =
      dbOneOpp.matchesTable ++
        [⟨dbOneOpp.nextMatchId, volUser.id, 1, some .pending, 42⟩]
    ∧ (create_match dbOneOpp volUser ⟨1⟩ 42).result =
        .ok ⟨dbOneOpp.nextMatchId, volUser.id, 1, some .pending, 42⟩
    ∧ (create_match dbOneOpp volUser ⟨1⟩ 42).notifications = [] :=
  c7_amended_create_match_success dbOneOpp volUser ⟨1⟩ 42 rfl (by decide) (by decide)

/-- C8: a volunteer caller receives exactly the matches whose user_id is
their own id, and an organization caller with null organization_id
receives the empty list. -/
theorem c8_list_matches_volunteer_and_null_org
    (db : DB) (caller : UserRec) :
    (caller.role = "volunteer" →
      ∀ m : MatchRec, m ∈ list_matches db caller ↔
        (m ∈ db.matchesTable ∧ m.user_id = caller.id))
    ∧ (caller.role = "organization" → caller.organization_id = none →
        list_matches db caller = []) := by
  constructor
  · intro hv m
    simp [list_matches, hv, List.mem_filter]
  · intro horg hnone
    simp [list_matches, horg, hnone, optFalsy]

/-- Organization user with id 3 and no organization. -/
def orgNoneUser : UserRec := ⟨3, "organization", none⟩

/-- Witness for C8: the volunteer sees the single own match of dbDup and
the organization user without organization sees nothing. -/
theorem c8_witness :
    ((⟨1, 5, 1, some .pending, 0⟩ : MatchRec) ∈ list_matches dbDup volUser ↔
      ((⟨1, 5, 1, some .pending, 0⟩ : MatchRec) ∈ dbDup.matchesTable ∧
        (⟨1, 5, 1, some .pending, 0⟩ : MatchRec).user_id = volUser.id))
    ∧ list_matches dbDup orgNoneUser = [] :=
  ⟨(c8_list_matches_volunteer_and_null_org dbDup volUser).1 rfl
      ⟨1, 5, 1, some .pending, 0⟩,
    (c8_list_matches_volunteer_and_null_org dbDup orgNoneUser).2 rfl rfl⟩

/-- C9: a request body without the status key parses to None (the
validator runs only on provided values), and an authorized update with
such a body overwrites the stored status with null; a provided value
outside the enum is rejected with 422. -/
theorem c9_omitted_status_writes_null
    (db : DB) (caller : UserRec) (mid : Nat)
    (m : MatchRec) (opp : OpportunityRec)
    (hm : db.matchesTable.find? (fun x => x.id == mid) = some m)
    (ho : db.opportunities.find? (fun o => o.id == m.opportunity_id) = some opp)
    (hauth : canUpdateMatch caller opp) :
    parseMatchUpdate .omitted = .ok none
    ∧ (update_match db caller mid .omitted).result = .ok { m with status := none }
    ∧ (update_match db caller mid .omitted).db.matchesTable =
        setMatchStatus db.matchesTable mid none
    ∧ parseMatchUpdate (.provided (some "bogus")) =
        .error ⟨422, "status must be one of pending accepted rejected"⟩ := by
  have hcore := update_match_core_authorized db caller mid none m opp hm ho hauth
  refine ⟨rfl, ?_, ?_, by decide⟩ <;> simp [update_match, parseMatchUpdate, hcore]

/-- Witness for C9: the admin sends an empty body for the accepted match
of dbAccepted and the stored status becomes null. -/
theorem c9_witness :
    parseMatchUpdate .omitted = .ok none
    ∧ (update_match dbAccepted adminUser 1 .omitted).result =
        .ok { (⟨1, 5, 1, some .accepted, 0⟩ : MatchRec) with status := none }
    ∧ (update_match dbAccepted adminUser 1 .omitted).db.matchesTable =
        setMatchStatus dbAccepted.matchesTable 1 none
    ∧ parseMatchUpdate (.provided (some "bogus")) =
        .error ⟨422, "status must be one of pending accepted rejected"⟩ :=
  c9_omitted_status_writes_null dbAccepted adminUser 1
    ⟨1, 5, 1, some .accepted, 0⟩ oppOrg1 (by decide) (by decide) (Or.inl rfl)

/-- C10: for a caller that passes the authorization of verify_hours (an
admin, or an organization user whose id equals the organization_id of
the opportunity, as the source compares), any decision string is
accepted without validation and verified is set to whether it equals
approved, with no check of the current verified value. -/
theorem c10_verify_hours_no_validation
    (db : DB) (caller : UserRec) (id : Nat) (d : String) (h : VolunteerHourRec)
    (hh : db.hours.find? (fun x => x.id == id) = some h)
    (hauth : caller.role = "admin" ∨
      (caller.role = "organization" ∧
        ∃ opp, db.opportunities.find? (fun o => o.id == h.opportunity_id) = some opp ∧
          opp.organization_id = some caller.id)) :
    (verify_hours db caller id ⟨d⟩).result = .ok { h with verified := d == "approved" }
    ∧ (verify_hours db caller id ⟨d⟩).db.hours =
        setHourVerified db.hours id (d == "approved") := by
  rcases hauth with hadm | ⟨horg, opp, hfo, hoeq⟩
  · constructor <;> simp [verify_hours, isOrganizationUser, hadm, hh]
  · constructor <;> simp [verify_hours, isOrganizationUser, horg, hh, hfo, hoeq]

/-- Witness for C10: an arbitrary decision string (Approved with a
capital letter, outside the documented set) flips the already verified
record of dbVerifiedHour back to unverified. -/
theorem c10_witness :
    (verify_hours dbVerifiedHour orgUser 1 ⟨"Approved"⟩).result =
      .ok { verifiedHour with verified := ("Approved" == "approved") }
    ∧ (verify_hours dbVerifiedHour orgUser 1 ⟨"Approved"⟩).db.hours =
        setHourVerified dbVerifiedHour.hours 1 ("Approved" == "approved") :=
  c10_verify_hours_no_validation dbVerifiedHour orgUser 1 "Approved" verifiedHour
    (by decide) (Or.inr ⟨rfl, oppOrg1, by decide, by decide⟩)

end Versity
